import Mathlib

/-!
# ModuleContextStreaming — verified embedding of the request-handling engine

A shallow embedding of `ModuleContextStreaming/server.py` (the dispatch
engine, the tool registry merge, and the MCP backend adapter), of the tool
bodies in `examples/simple_server.py`, and — modelled from the spec, since
`ModuleContextStreaming/auth.py` is not among the sources — of the
authentication interceptor.  Theorems below settle the spec's claims about
chunk sequencing, error handling, registry construction and enumeration.
-/

namespace MCS

/-- Arguments of one tool call: the string-keyed mapping produced by
`MessageToDict(request.arguments)`, restricted to the string-valued
arguments the embedded tools consult. -/
abbrev Args := List (String × String)

/-- Python `d.get(k)`: the value bound to the first matching key, if any. -/
def dictGet {α : Type} (d : List (String × α)) (k : String) : Option α :=
  (d.find? (fun p => p.1 = k)).map (fun p => p.2)

/-- Python `d[k] = v` on a dict: replace the (unique) existing binding in
place when the key is present, append the new binding otherwise (insertion
order preserved, the later write wins). -/
def dictInsert {α : Type} (k : String) (v : α) :
    List (String × α) → List (String × α)
  | [] => [(k, v)]
  | a :: t => if a.1 = k then (k, v) :: t else a :: dictInsert k v t

/-- Python `d.update(new)`: insert every binding of `new` into `d` in order. -/
def dictUpdate {α : Type} (d new : List (String × α)) : List (String × α) :=
  new.foldl (fun acc p => dictInsert p.1 p.2 acc) d

/-- A value yielded by a tool generator, as the dispatch loop in
`ModuleContextServicer.CallTool` discriminates it: `bytes`, `dict`
(structured JSON data), or anything else rendered through `str()` —
in this codebase always already a string. -/
inductive YieldVal where
  | bytes (data : List Nat)
  | dict (entries : List (String × String))
  | str (s : String)
deriving DecidableEq, Repr

/-- The observable behaviour of one Python generator invocation: the values
it yields, in order, and optionally the message of an exception raised after
the last yield. -/
structure GenRun where
  yields : List YieldVal
  raises : Option String
deriving DecidableEq, Repr

/-- One registry entry: the tool's implementation function together with its
`__doc__` attribute. -/
structure ToolFunction where
  run : Args → GenRun
  doc : Option String

/-- The tool registry: Python dict from public tool name to implementation. -/
abbrev Registry := List (String × ToolFunction)

/-- The `oneof content_block` of a `ToolCallChunk` (protocol data model):
text, image (binary payload plus MIME type), or error. -/
inductive ChunkContent where
  | text (s : String)
  | image (data : List Nat) (mime_type : String)
  | error (s : String)
deriving DecidableEq, Repr

/-- Is this content payload the error variant of the oneof? -/
def ChunkContent.isErrorVariant : ChunkContent → Bool
  | .error _ => true
  | _ => false

/-- One streamed chunk: a sequence number and exactly one content payload. -/
structure ToolCallChunk where
  sequence_id : Nat
  content : ChunkContent
deriving DecidableEq, Repr

/-- Models Python's `json.dumps(entries, indent=2)` for the flat
string-valued mappings the embedded tools yield. -/
def jsonDumps (entries : List (String × String)) : String :=
  match entries with
  | [] => "\x7b\x7d"
  | es =>
      "\x7b\n" ++
        String.intercalate ",\n"
          (es.map (fun p => "  \"" ++ p.1 ++ "\": \"" ++ p.2 ++ "\"")) ++
      "\n\x7d"

/-- One iteration of the dispatch loop in `ModuleContextServicer.CallTool`
(server.py lines 170-184): bytes become an image chunk with the hardcoded
MIME type `image/jpeg`, dicts become a text chunk holding their JSON dump,
anything else becomes a text chunk. -/
def encodeChunk (sequence_id : Nat) (v : YieldVal) : ToolCallChunk :=
  match v with
  | .bytes data => ⟨sequence_id, .image data "image/jpeg"⟩
  | .dict entries => ⟨sequence_id, .text (jsonDumps entries)⟩
  | .str s => ⟨sequence_id, .text s⟩

/-- The text of the terminal chunk CallTool emits when the tool faults
(server.py lines 186-192). -/
def errorChunkText (msg : String) : String := "[Error: " ++ msg ++ "]"

/-- gRPC status codes used by the servicer. -/
inductive StatusCode where
  | NOT_FOUND
  | UNAUTHENTICATED
  | INTERNAL
deriving DecidableEq, Repr

/-- The transport-level outcome of one CallTool RPC: either the call was
aborted with an RPC status before streaming (`context.abort`), or it
completed normally having streamed the given chunks. -/
inductive CallOutcome where
  | aborted (code : StatusCode) (details : String)
  | streamed (chunks : List ToolCallChunk)
deriving DecidableEq, Repr

/-- `ModuleContextServicer.CallTool` (server.py lines 157-192): look the
tool up in the registry; abort with NOT_FOUND if absent; otherwise run the
generator, emitting one sequence-numbered chunk per yielded value, and on an
exception append one final text chunk carrying the fault's message. -/
def CallTool (registry : Registry) (tool_name : String) (arguments : Args) :
    CallOutcome :=
  match dictGet registry tool_name with
  | none => .aborted .NOT_FOUND ("Tool '" ++ tool_name ++ "' not found.")
  | some tool_function =>
      let r := tool_function.run arguments
      let normal := r.yields.enum.map (fun p => encodeChunk p.1 p.2)
      match r.raises with
      | none => .streamed normal
      | some msg =>
          .streamed (normal ++
            [⟨r.yields.length, .text (errorChunkText msg)⟩])

/-- One enumerated tool: name plus human-readable description. -/
structure ToolDefinition where
  name : String
  description : String
deriving DecidableEq, Repr

/-- The fallback description used by ListTools. -/
def defaultDescription : String := "No description available."

/-- Python `s or dflt` on an optional string: the string when present and
non-empty, the default otherwise. -/
def strOr (s : Option String) (dflt : String) : String :=
  match s with
  | none => dflt
  | some s => if s = "" then dflt else s

/-- `ModuleContextServicer.ListTools` (server.py lines 144-152): one
`ToolDefinition` per registry entry, named by the registry key, described by
the function's docstring or the fallback text. -/
def ListTools (registry : Registry) : List ToolDefinition :=
  registry.map (fun p => ⟨p.1, strOr p.2.doc defaultDescription⟩)

/-! ## Sample registries (mirroring `tests/conftest.py`) -/

/-- `tool_text_responder` from tests/conftest.py: yields two text values. -/
def tool_text_responder : ToolFunction :=
  ⟨fun _ => ⟨[.str "Text response 1", .str "Text response 2"], none⟩,
   some "A simple tool that yields text."⟩

/-- `tool_bytes_responder` from tests/conftest.py: yields one PNG-headed
byte string. -/
def tool_bytes_responder : ToolFunction :=
  ⟨fun _ => ⟨[.bytes [137, 80, 78, 71, 13, 10, 26, 10, 0, 0]], none⟩,
   some "A simple tool that yields bytes."⟩

/-- The mock registry of tests/conftest.py. -/
def mock_tool_registry : Registry :=
  [("text_tool", tool_text_responder), ("bytes_tool", tool_bytes_responder)]

/-- A tool source that yields one item and then raises — the mid-sequence
fault scenario of the spec's testable properties. -/
def faulty_tool : ToolFunction :=
  ⟨fun _ => ⟨[.str "partial"], some "boom"⟩, none⟩

/-- A one-entry registry holding the faulting tool. -/
def faulty_registry : Registry := [("faulty", faulty_tool)]

/-! ## Chunk sequencing lemmas -/

lemma encodeChunk_sequence_id (n : Nat) (v : YieldVal) :
    (encodeChunk n v).sequence_id = n := by
  cases v <;> rfl

lemma sequence_ids_of_normal_chunks (ys : List YieldVal) :
    (ys.enum.map (fun p => encodeChunk p.1 p.2)).map (fun c => c.sequence_id)
      = List.range ys.length := by
  rw [List.map_map]
  have he : ((fun c : ToolCallChunk => c.sequence_id) ∘
      fun p : Nat × YieldVal => encodeChunk p.1 p.2) =
      fun p : Nat × YieldVal => p.1 := by
    funext p
    exact encodeChunk_sequence_id p.1 p.2
  rw [he]
  simp [List.enum_map_fst]

lemma length_normal_chunks (ys : List YieldVal) :
    (ys.enum.map (fun p => encodeChunk p.1 p.2)).length = ys.length := by
  simp

/-! ## Claim theorems -/

/-- C1: for every registered tool and every invocation, the chunks emitted
by CallTool carry sequence_id values that are exactly 0..N-1, gapless and
strictly increasing, regardless of how the source batches its output and
including any terminal error chunk. -/
theorem callTool_sequence_ids_gapless (registry : Registry)
    (tool_name : String) (arguments : Args) (chunks : List ToolCallChunk)
    (h : CallTool registry tool_name arguments = .streamed chunks) :
    chunks.map (fun c => c.sequence_id) = List.range chunks.length := by
  unfold CallTool at h
  cases hg : dictGet registry tool_name with
  | none =>
      rw [hg] at h
      exact absurd h (by simp)
  | some f =>
      rw [hg] at h
      simp only at h
      cases hr : (f.run arguments).raises with
      | none =>
          rw [hr] at h
          have hc : chunks =
              (f.run arguments).yields.enum.map (fun p => encodeChunk p.1 p.2) := by
            cases h
            rfl
          subst hc
          rw [sequence_ids_of_normal_chunks, length_normal_chunks]
      | some msg =>
          rw [hr] at h
          have hc : chunks =
              (f.run arguments).yields.enum.map (fun p => encodeChunk p.1 p.2) ++
                [⟨(f.run arguments).yields.length,
                  .text (errorChunkText msg)⟩] := by
            cases h
            rfl
          subst hc
          rw [List.map_append, sequence_ids_of_normal_chunks]
          simp [List.range_succ]

/-- Witness for C1 at the conftest registry: the two-yield text tool
produces chunks numbered 0 and 1. -/
theorem callTool_sequence_ids_gapless_witness :
    ([⟨0, .text "Text response 1"⟩, ⟨1, .text "Text response 2"⟩] :
        List ToolCallChunk).map (fun c => c.sequence_id) =
      List.range ([⟨0, .text "Text response 1"⟩, ⟨1, .text "Text response 2"⟩] :
        List ToolCallChunk).length :=
  callTool_sequence_ids_gapless mock_tool_registry "text_tool" [] _ (by decide)

/-- C2: a source that raises after yielding k items produces exactly the k
normal chunks followed by one final chunk carrying the fault's message, and
the call still completes normally at the transport level (streamed, not
aborted). -/
theorem callTool_fault_mid_sequence (registry : Registry)
    (tool_name : String) (arguments : Args) (f : ToolFunction)
    (ys : List YieldVal) (msg : String)
    (hf : dictGet registry tool_name = some f)
    (hr : f.run arguments = ⟨ys, some msg⟩) :
    CallTool registry tool_name arguments =
      .streamed (ys.enum.map (fun p => encodeChunk p.1 p.2) ++
        [⟨ys.length, .text (errorChunkText msg)⟩]) ∧
    (ys.enum.map (fun p => encodeChunk p.1 p.2)).length = ys.length := by
  refine ⟨?_, length_normal_chunks ys⟩
  unfold CallTool
  rw [hf]
  simp only [hr]

/-- Witness for C2: the faulting tool yields one item then raises `boom`;
CallTool emits that item's chunk followed by one `[Error: boom]` chunk. -/
theorem callTool_fault_mid_sequence_witness :
    CallTool faulty_registry "faulty" [] =
      .streamed ([YieldVal.str "partial"].enum.map (fun p => encodeChunk p.1 p.2) ++
        [⟨[YieldVal.str "partial"].length,
          .text (errorChunkText "boom")⟩]) ∧
    ([YieldVal.str "partial"].enum.map (fun p => encodeChunk p.1 p.2)).length =
      [YieldVal.str "partial"].length :=
  callTool_fault_mid_sequence faulty_registry "faulty" [] faulty_tool
    [YieldVal.str "partial"] "boom" rfl rfl

/-- C3: an unknown tool name is rejected with a NOT_FOUND abort and no chunk
is ever streamed. -/
theorem callTool_unknown_tool_rejected (registry : Registry)
    (tool_name : String) (arguments : Args)
    (h : dictGet registry tool_name = none) :
    CallTool registry tool_name arguments =
      .aborted .NOT_FOUND ("Tool '" ++ tool_name ++ "' not found.") ∧
    ∀ chunks, CallTool registry tool_name arguments ≠ .streamed chunks := by
  have he : CallTool registry tool_name arguments =
      .aborted .NOT_FOUND ("Tool '" ++ tool_name ++ "' not found.") := by
    unfold CallTool
    rw [h]
  refine ⟨he, fun chunks hc => ?_⟩
  rw [he] at hc
  exact CallOutcome.noConfusion hc

/-- Witness for C3: calling a name absent from the conftest registry. -/
theorem callTool_unknown_tool_rejected_witness :
    CallTool mock_tool_registry "no_such_tool" [] =
      .aborted .NOT_FOUND ("Tool '" ++ "no_such_tool" ++ "' not found.") ∧
    ∀ chunks, CallTool mock_tool_registry "no_such_tool" [] ≠ .streamed chunks :=
  callTool_unknown_tool_rejected mock_tool_registry "no_such_tool" [] rfl

/-- C5 counterexample: the faulting tool's call ends in a chunk whose oneof
content is the text variant `[Error: boom]`, not the error variant — the
claim that a failed call's last chunk is an error-variant chunk is false on
the code. -/
theorem callTool_last_chunk_not_error_variant :
    CallTool faulty_registry "faulty" [] =
      .streamed [⟨0, .text "partial"⟩, ⟨1, .text "[Error: boom]"⟩] ∧
    (([⟨0, .text "partial"⟩, ⟨1, .text "[Error: boom]"⟩] :
        List ToolCallChunk).getLast?).map
      (fun c => c.content.isErrorVariant) = some false := by
  exact ⟨by decide, rfl⟩

/-- C5 (amended): for every call whose tool source fails, the last chunk
emitted is a text-variant chunk carrying the fault's message in the form
`[Error: <message>]`, and it is never dropped. -/
theorem callTool_failed_call_last_chunk (registry : Registry)
    (tool_name : String) (arguments : Args) (f : ToolFunction)
    (ys : List YieldVal) (msg : String)
    (hf : dictGet registry tool_name = some f)
    (hr : f.run arguments = ⟨ys, some msg⟩) :
    ∃ chunks, CallTool registry tool_name arguments = .streamed chunks ∧
      chunks.getLast? = some ⟨ys.length, .text (errorChunkText msg)⟩ := by
  refine ⟨ys.enum.map (fun p => encodeChunk p.1 p.2) ++
    [⟨ys.length, .text (errorChunkText msg)⟩], ?_, ?_⟩
  · unfold CallTool
    rw [hf]
    simp only [hr]
  · simp

/-- Witness for C5 (amended) at the faulting registry. -/
theorem callTool_failed_call_last_chunk_witness :
    ∃ chunks, CallTool faulty_registry "faulty" [] = .streamed chunks ∧
      chunks.getLast? =
        some ⟨[YieldVal.str "partial"].length,
          .text (errorChunkText "boom")⟩ :=
  callTool_failed_call_last_chunk faulty_registry "faulty" [] faulty_tool
    [YieldVal.str "partial"] "boom" rfl rfl

/-! ## Item encoding (C6) -/

/-- OutputItem as the spec's data model describes it (§3): one of a text
string, a binary payload with a MIME type, or a structured mapping.
Written from the spec's words, for comparison with the code's `YieldVal`,
whose binary values carry no MIME type. -/
inductive SpecOutputItem where
  | text (s : String)
  | binary (data : List Nat) (mime_type : String)
  | structured (entries : List (String × String))
deriving DecidableEq, Repr

/-- What the dispatch loop actually receives for a spec-level item: a plain
Python value — the MIME type of a binary item has no carrier and is lost. -/
def SpecOutputItem.toYieldVal : SpecOutputItem → YieldVal
  | .text s => .str s
  | .binary data _ => .bytes data
  | .structured entries => .dict entries

/-- C6 counterexample: a binary item whose MIME type is `image/png` (the
conftest PNG bytes) is encoded as an image chunk with the hardcoded MIME
type `image/jpeg`, not the item's own MIME type. -/
theorem encodeChunk_binary_mime_hardcoded :
    encodeChunk 0
        ((SpecOutputItem.binary [137, 80, 78, 71, 13, 10, 26, 10, 0, 0]
          "image/png").toYieldVal) =
      ⟨0, .image [137, 80, 78, 71, 13, 10, 26, 10, 0, 0] "image/jpeg"⟩ ∧
    "image/jpeg" ≠ "image/png" :=
  ⟨rfl, by decide⟩

/-- C6 (amended): a text item becomes a text chunk, a structured dict item
becomes a text chunk holding its canonical JSON encoding, and a bytes item
becomes an image chunk whose MIME type is the fixed string `image/jpeg`
regardless of the item's actual content type (the code's binary items carry
no MIME type of their own). -/
theorem encodeChunk_variants (sequence_id : Nat) :
    (∀ s, encodeChunk sequence_id (.str s) = ⟨sequence_id, .text s⟩) ∧
    (∀ entries, encodeChunk sequence_id (.dict entries) =
      ⟨sequence_id, .text (jsonDumps entries)⟩) ∧
    (∀ data, encodeChunk sequence_id (.bytes data) =
      ⟨sequence_id, .image data "image/jpeg"⟩) :=
  ⟨fun _ => rfl, fun _ => rfl, fun _ => rfl⟩

/-! ## Tool enumeration (C10) -/

lemma strOr_defaultDescription_ne_empty (s : Option String) :
    strOr s defaultDescription ≠ "" := by
  cases s with
  | none => decide
  | some s =>
      by_cases h : s = ""
      · simp [strOr, h, defaultDescription]
      · simp [strOr, h]

/-- C10: ListTools yields exactly one definition per registry entry, named
by the entry's key and described by the tool function's docstring; a tool
with no docstring gets the fixed fallback text, so a description is never
empty. -/
theorem listTools_definitions (registry : Registry) :
    ListTools registry =
      registry.map (fun p => ⟨p.1, strOr p.2.doc defaultDescription⟩) ∧
    (ListTools registry).length = registry.length ∧
    (ListTools registry).map (fun d => d.name) = registry.map Prod.fst ∧
    (∀ p ∈ registry, p.2.doc = none →
      strOr p.2.doc defaultDescription = defaultDescription) ∧
    (∀ p ∈ registry, ∀ s, p.2.doc = some s → s ≠ "" →
      strOr p.2.doc defaultDescription = s) ∧
    ∀ d ∈ ListTools registry, d.description ≠ "" := by
  refine ⟨rfl, by simp [ListTools], by simp [ListTools], ?_, ?_, ?_⟩
  · intro p _ h
    rw [h]
    rfl
  · intro p _ s hs hne
    rw [hs]
    simp [strOr, hne]
  · intro d hd
    rcases List.mem_map.mp hd with ⟨p, _, hp⟩
    rw [← hp]
    exact strOr_defaultDescription_ne_empty p.2.doc

/-! ## Authentication gate (C4, modelled from the spec) -/

/-- Modelled from the spec: the token-extraction step of the
`AuthInterceptor` installed by `Server.run` (the interceptor itself lives in
`ModuleContextStreaming/auth.py`, which is not among the sources).  Per
§4.2/§6 of the spec, the bearer token is supplied as the call-metadata entry
`authorization: Bearer <token>`; absent or malformed metadata yields no
token. -/
def extractBearer (metadata : List (String × String)) : Option String :=
  match dictGet metadata "authorization" with
  | none => none
  | some v => if v.startsWith "Bearer " then some (v.drop 7) else none

/-- Modelled from the spec: a call passes the auth gate exactly when its
metadata holds a well-formed bearer token that the validator accepts. -/
def validBearer (validate : String → Bool)
    (metadata : List (String × String)) : Bool :=
  match extractBearer metadata with
  | none => false
  | some tok => validate tok

/-- The caller-visible result of one gated RPC. -/
inductive RpcResult where
  | unauthenticated
  | listed (tools : List ToolDefinition)
  | called (outcome : CallOutcome)
deriving DecidableEq, Repr

/-- Modelled from the spec: the interceptor gates ListTools before the
handler runs; the Bool records whether the wrapped handler executed. -/
def interceptedListTools (validate : String → Bool)
    (metadata : List (String × String)) (registry : Registry) :
    RpcResult × Bool :=
  if validBearer validate metadata then (.listed (ListTools registry), true)
  else (.unauthenticated, false)

/-- Modelled from the spec: the interceptor gates CallTool before the
handler runs; the Bool records whether the wrapped handler (and hence any
tool logic) executed. -/
def interceptedCallTool (validate : String → Bool)
    (metadata : List (String × String)) (registry : Registry)
    (tool_name : String) (arguments : Args) : RpcResult × Bool :=
  if validBearer validate metadata then
    (.called (CallTool registry tool_name arguments), true)
  else (.unauthenticated, false)

/-- C4: every inbound ListTools or CallTool call lacking a valid bearer
token is rejected as unauthenticated before the handler executes — the
handler-ran flag stays false on both operations, so no tool logic runs. -/
theorem auth_gate_rejects_before_handler (validate : String → Bool)
    (metadata : List (String × String)) (registry : Registry)
    (tool_name : String) (arguments : Args)
    (h : validBearer validate metadata = false) :
    interceptedListTools validate metadata registry =
      (.unauthenticated, false) ∧
    interceptedCallTool validate metadata registry tool_name arguments =
      (.unauthenticated, false) := by
  constructor <;> simp [interceptedListTools, interceptedCallTool, h]

/-- Witness for C4: a call with empty metadata is rejected on both
operations even under a validator that accepts every token. -/
theorem auth_gate_rejects_before_handler_witness :
    interceptedListTools (fun _ => true) [] mock_tool_registry =
      (.unauthenticated, false) ∧
    interceptedCallTool (fun _ => true) [] mock_tool_registry "text_tool" [] =
      (.unauthenticated, false) :=
  auth_gate_rejects_before_handler (fun _ => true) [] mock_tool_registry
    "text_tool" [] rfl

/-! ## MCP backend adapter and registry merge (C7) -/

/-- Static metadata of one tool cached from a remote MCP backend
(`MCPToolAdapter.tools_cache` after `connect()`). -/
structure MCPTool where
  name : String
  description : Option String
deriving DecidableEq, Repr

/-- An MCP backend adapter after `connect()`: its backend name and the
cached list of remote tools. -/
structure MCPToolAdapter where
  name : String
  tools_cache : List MCPTool

/-- `MCPToolAdapter.get_mcs_tools` (server.py lines 67-123): build a fresh
dict, inserting for each cached tool the generated tool function under the
namespaced name `<backend-name>:<tool-name>`.  The generated closure's body
(the remote `session.call_tool` round trip and its content translation) is
abstracted by `remoteRun`; its docstring is the MCP tool's description or
the generated fallback text. -/
def get_mcs_tools (adapter : MCPToolAdapter)
    (remoteRun : String → Args → GenRun) : Registry :=
  adapter.tools_cache.foldl
    (fun registry t =>
      dictInsert (adapter.name ++ ":" ++ t.name)
        ⟨remoteRun t.name,
         some (strOr t.description
           ("MCP Tool from '" ++ adapter.name ++ "': " ++ t.name))⟩
        registry)
    []

/-- The registry-merge step of `Server._initialize_mcp_backends` (server.py
lines 229-260): starting from the native registry, for each connected
backend in order run `self.tool_registry.update(adapter.get_mcs_tools())`.
`remoteRun` abstracts, per backend name, the remote execution of one tool. -/
def initialize_mcp_backends (native : Registry)
    (backends : List MCPToolAdapter)
    (remoteRun : String → String → Args → GenRun) : Registry :=
  backends.foldl
    (fun registry adapter =>
      dictUpdate registry (get_mcs_tools adapter (remoteRun adapter.name)))
    native

/-! ### Dict lemmas -/

lemma dictGet_dictInsert_self {α : Type} (k : String) (v : α)
    (d : List (String × α)) : dictGet (dictInsert k v d) k = some v := by
  induction d with
  | nil => simp [dictInsert, dictGet]
  | cons a t ih =>
      by_cases h : a.1 = k
      · simp [dictInsert, dictGet, h]
      · simp only [dictInsert, h, if_neg]
        simpa [dictGet, List.find?_cons, h] using ih

lemma dictGet_dictInsert_ne {α : Type} (k k' : String) (v : α)
    (d : List (String × α)) (hne : k' ≠ k) :
    dictGet (dictInsert k v d) k' = dictGet d k' := by
  have hkk : ¬ (k = k') := fun hk => hne hk.symm
  induction d with
  | nil => simp [dictInsert, dictGet, hkk]
  | cons a t ih =>
      by_cases h : a.1 = k
      · rw [dictInsert, if_pos h]
        unfold dictGet
        rw [List.find?_cons_of_neg _ (by simpa using hkk),
            List.find?_cons_of_neg _ (by simp [h, hkk])]
      · rw [dictInsert, if_neg h]
        by_cases h' : a.1 = k'
        · unfold dictGet
          rw [List.find?_cons_of_pos _ (by simpa using h'),
              List.find?_cons_of_pos _ (by simpa using h')]
        · unfold dictGet at ih ⊢
          rw [List.find?_cons_of_neg _ (by simpa using h'),
              List.find?_cons_of_neg _ (by simpa using h')]
          exact ih

lemma mem_keys_dictInsert {α : Type} (x k : String) (v : α)
    (d : List (String × α))
    (h : x ∈ (dictInsert k v d).map Prod.fst) :
    x ∈ d.map Prod.fst ∨ x = k := by
  induction d with
  | nil =>
      simp [dictInsert] at h
      exact Or.inr h
  | cons a t ih =>
      by_cases hk : a.1 = k
      · rw [dictInsert, if_pos hk] at h
        rcases List.mem_map.mp h with ⟨p, hp, hpx⟩
        rcases List.mem_cons.mp hp with hp1 | hp2
        · exact Or.inr (by rw [← hpx, hp1])
        · exact Or.inl (List.mem_map.mpr ⟨p, List.mem_cons_of_mem a hp2, hpx⟩)
      · rw [dictInsert, if_neg hk] at h
        simp only [List.map_cons, List.mem_cons] at h ⊢
        rcases h with h1 | h2
        · exact Or.inl (Or.inl h1)
        · rcases ih h2 with h3 | h4
          · exact Or.inl (Or.inr h3)
          · exact Or.inr h4

lemma nodup_keys_dictInsert {α : Type} (k : String) (v : α)
    (d : List (String × α)) (h : (d.map Prod.fst).Nodup) :
    ((dictInsert k v d).map Prod.fst).Nodup := by
  induction d with
  | nil => simp [dictInsert]
  | cons a t ih =>
      simp only [List.map_cons, List.nodup_cons] at h
      by_cases hk : a.1 = k
      · rw [dictInsert, if_pos hk]
        simp only [List.map_cons, List.nodup_cons]
        exact ⟨by rw [← hk]; exact h.1, h.2⟩
      · rw [dictInsert, if_neg hk]
        simp only [List.map_cons, List.nodup_cons]
        refine ⟨fun hmem => ?_, ih h.2⟩
        rcases mem_keys_dictInsert a.1 k v t hmem with h1 | h2
        · exact h.1 h1
        · exact hk h2

lemma nodup_keys_dictUpdate {α : Type} (d new : List (String × α))
    (h : (d.map Prod.fst).Nodup) :
    ((dictUpdate d new).map Prod.fst).Nodup := by
  induction new generalizing d with
  | nil => exact h
  | cons a t ih => exact ih (dictInsert a.1 a.2 d) (nodup_keys_dictInsert a.1 a.2 d h)

lemma get_mcs_tools_keys_aux (nm : String)
    (F : MCPTool → ToolFunction) (cache : List MCPTool) (acc : Registry) :
    ∀ k ∈ (cache.foldl
        (fun registry t => dictInsert (nm ++ ":" ++ t.name) (F t) registry)
        acc).map Prod.fst,
      k ∈ acc.map Prod.fst ∨ ∃ t ∈ cache, k = nm ++ ":" ++ t.name := by
  induction cache generalizing acc with
  | nil =>
      intro k hk
      exact Or.inl hk
  | cons c cs ih =>
      intro k hk
      rcases ih (dictInsert (nm ++ ":" ++ c.name) (F c) acc) k hk with h1 | h2
      · rcases mem_keys_dictInsert k (nm ++ ":" ++ c.name) (F c) acc h1 with h3 | h4
        · exact Or.inl h3
        · exact Or.inr ⟨c, List.mem_cons_self c cs, h4⟩
      · rcases h2 with ⟨t, ht, hkt⟩
        exact Or.inr ⟨t, List.mem_cons_of_mem c ht, hkt⟩

lemma get_mcs_tools_keys (adapter : MCPToolAdapter)
    (remoteRun : String → Args → GenRun) :
    ∀ k ∈ (get_mcs_tools adapter remoteRun).map Prod.fst,
      ∃ t ∈ adapter.tools_cache, k = adapter.name ++ ":" ++ t.name := by
  intro k hk
  rcases get_mcs_tools_keys_aux adapter.name
      (fun t => ⟨remoteRun t.name,
        some (strOr t.description
          ("MCP Tool from '" ++ adapter.name ++ "': " ++ t.name))⟩)
      adapter.tools_cache [] k hk with h1 | h2
  · simp at h1
  · exact h2

/-- C7: every tool obtained from a remote backend is registered under the
namespaced name `<backend-name>:<tool-name>`; a registration for an existing
name replaces the earlier binding and leaves all other names untouched
(last-writer-wins); and the keys of the final merged registry are unique. -/
theorem registry_merge_namespaced_lww_unique (native : Registry)
    (backends : List MCPToolAdapter)
    (remoteRun : String → String → Args → GenRun)
    (h : (native.map Prod.fst).Nodup) :
    (∀ a ∈ backends,
      ∀ k ∈ (get_mcs_tools a (remoteRun a.name)).map Prod.fst,
        ∃ t ∈ a.tools_cache, k = a.name ++ ":" ++ t.name) ∧
    (∀ (d : Registry) (k : String) (v : ToolFunction),
      dictGet (dictInsert k v d) k = some v) ∧
    (∀ (d : Registry) (k k' : String) (v : ToolFunction), k' ≠ k →
      dictGet (dictInsert k v d) k' = dictGet d k') ∧
    ((initialize_mcp_backends native backends remoteRun).map Prod.fst).Nodup := by
  refine ⟨fun a _ => get_mcs_tools_keys a (remoteRun a.name),
    fun d k v => dictGet_dictInsert_self k v d,
    fun d k k' v hne => dictGet_dictInsert_ne k k' v d hne, ?_⟩
  unfold initialize_mcp_backends
  induction backends generalizing native with
  | nil => exact h
  | cons b bs ih =>
      exact ih _ (nodup_keys_dictUpdate native
        (get_mcs_tools b (remoteRun b.name)) h)

/-- A sample connected backend for the C7 witness: backend `fs` exposing a
remote tool also named `text_tool`, colliding only after namespacing. -/
def sample_backend : MCPToolAdapter :=
  ⟨"fs", [⟨"text_tool", some "Reads files"⟩, ⟨"fetch", none⟩]⟩

/-- A trivial remote-execution oracle for witnesses. -/
def sample_remote_run (backend_name tool_name : String) (_arguments : Args) :
    GenRun :=
  ⟨[.str (backend_name ++ ":" ++ tool_name)], none⟩

/-- Witness for C7 at the conftest registry merged with the sample backend. -/
theorem registry_merge_namespaced_lww_unique_witness :
    (∀ a ∈ [sample_backend],
      ∀ k ∈ (get_mcs_tools a (sample_remote_run a.name)).map Prod.fst,
        ∃ t ∈ a.tools_cache, k = a.name ++ ":" ++ t.name) ∧
    (∀ (d : Registry) (k : String) (v : ToolFunction),
      dictGet (dictInsert k v d) k = some v) ∧
    (∀ (d : Registry) (k k' : String) (v : ToolFunction), k' ≠ k →
      dictGet (dictInsert k v d) k' = dictGet d k') ∧
    ((initialize_mcp_backends mock_tool_registry [sample_backend]
        sample_remote_run).map Prod.fst).Nodup :=
  registry_merge_namespaced_lww_unique mock_tool_registry [sample_backend]
    sample_remote_run (by decide)

/-! ## Example tool bodies (C8, from `examples/simple_server.py`) -/

/-- One entry of the DuckDuckGo `RelatedTopics` array, keeping the two keys
`tool_web_search` consults. -/
structure DDGTopic where
  text : Option String
  firstURL : Option String
deriving DecidableEq, Repr

/-- The fields of the DuckDuckGo Instant Answer JSON that `tool_web_search`
consults; an absent `RelatedTopics` key and an empty array are both the
empty list (Python treats both as falsy). -/
structure DDGResponse where
  abstractText : Option String
  relatedTopics : List DDGTopic
deriving DecidableEq, Repr

/-- `tool_web_search` (examples/simple_server.py lines 33-69).  The outbound
HTTP call is the external collaborator `webGet`: `.error e` models a raised
`requests.RequestException` with message `e`, `.ok data` the parsed JSON.
A missing or empty `query` argument yields the single error marker; the
falsy checks mirror Python truthiness. -/
def tool_web_search (webGet : String → Except String DDGResponse)
    (arguments : Args) : GenRun :=
  match dictGet arguments "query" with
  | none => ⟨[.str "ERROR: A 'query' argument is required for web search."], none⟩
  | some query =>
      if query = "" then
        ⟨[.str "ERROR: A 'query' argument is required for web search."], none⟩
      else
        let header := YieldVal.str ("Searching the web for: '" ++ query ++ "'...")
        match webGet query with
        | .error e =>
            ⟨[header, .str ("ERROR: Failed to perform web search. " ++ e)], none⟩
        | .ok data =>
            let instant :=
              match data.abstractText with
              | none => []
              | some t =>
                  if t = "" then []
                  else [YieldVal.str ("\nInstant Answer: " ++ t)]
            let related :=
              if data.relatedTopics.isEmpty then
                [YieldVal.str "No direct results found."]
              else
                YieldVal.str "\nRelated Topics:" ::
                  data.relatedTopics.filterMap (fun topic =>
                    match topic.text, topic.firstURL with
                    | some t, some u =>
                        some (YieldVal.str ("- " ++ t ++ ": " ++ u))
                    | _, _ => none)
            ⟨header :: (instant ++ related), none⟩

/-- `tool_image_fetcher` (examples/simple_server.py lines 72-94).  The
outbound HTTP call is the external collaborator `httpGet`: `.ok content`
models the fetched body bytes, `.error e` a raised `requests
.RequestException`.  A missing or empty `url` argument yields the single
error marker. -/
def tool_image_fetcher (httpGet : String → Except String (List Nat))
    (arguments : Args) : GenRun :=
  match dictGet arguments "url" with
  | none => ⟨[.str "ERROR: A 'url' argument is required to fetch an image."], none⟩
  | some url =>
      if url = "" then
        ⟨[.str "ERROR: A 'url' argument is required to fetch an image."], none⟩
      else
        match httpGet url with
        | .ok content => ⟨[.bytes content], none⟩
        | .error e =>
            ⟨[.str ("ERROR: Could not fetch image from " ++ url ++ ". " ++ e)],
             none⟩

/-- C8: an invocation omitting the required argument makes the tool's output
sequence exactly one error-marker item, produced as the first and only item
with no raised fault, and at the RPC level the stream holds exactly one text
chunk and the call completes normally rather than aborting. -/
theorem missing_required_argument_single_error_item
    (webGet : String → Except String DDGResponse)
    (httpGet : String → Except String (List Nat)) (arguments : Args)
    (hq : dictGet arguments "query" = none)
    (hu : dictGet arguments "url" = none) :
    tool_web_search webGet arguments =
      ⟨[.str "ERROR: A 'query' argument is required for web search."], none⟩ ∧
    tool_image_fetcher httpGet arguments =
      ⟨[.str "ERROR: A 'url' argument is required to fetch an image."], none⟩ ∧
    CallTool [("web_search", ⟨tool_web_search webGet, none⟩)]
        "web_search" arguments =
      .streamed
        [⟨0, .text "ERROR: A 'query' argument is required for web search."⟩] ∧
    CallTool [("image_fetcher", ⟨tool_image_fetcher httpGet, none⟩)]
        "image_fetcher" arguments =
      .streamed
        [⟨0, .text "ERROR: A 'url' argument is required to fetch an image."⟩] := by
  have hw : tool_web_search webGet arguments =
      ⟨[.str "ERROR: A 'query' argument is required for web search."], none⟩ := by
    unfold tool_web_search
    rw [hq]
  have hi : tool_image_fetcher httpGet arguments =
      ⟨[.str "ERROR: A 'url' argument is required to fetch an image."], none⟩ := by
    unfold tool_image_fetcher
    rw [hu]
  refine ⟨hw, hi, ?_, ?_⟩
  · unfold CallTool
    rw [show dictGet [("web_search",
        (⟨tool_web_search webGet, none⟩ : ToolFunction))] "web_search" =
      some ⟨tool_web_search webGet, none⟩ from rfl]
    simp only [hw]
    rfl
  · unfold CallTool
    rw [show dictGet [("image_fetcher",
        (⟨tool_image_fetcher httpGet, none⟩ : ToolFunction))] "image_fetcher" =
      some ⟨tool_image_fetcher httpGet, none⟩ from rfl]
    simp only [hi]
    rfl

/-- Witness for C8 with empty arguments and stub HTTP collaborators. -/
theorem missing_required_argument_single_error_item_witness :
    tool_web_search (fun _ => .error "net down") [] =
      ⟨[.str "ERROR: A 'query' argument is required for web search."], none⟩ ∧
    tool_image_fetcher (fun _ => .error "net down") [] =
      ⟨[.str "ERROR: A 'url' argument is required to fetch an image."], none⟩ ∧
    CallTool [("web_search",
        ⟨tool_web_search (fun _ => .error "net down"), none⟩)]
        "web_search" [] =
      .streamed
        [⟨0, .text "ERROR: A 'query' argument is required for web search."⟩] ∧
    CallTool [("image_fetcher",
        ⟨tool_image_fetcher (fun _ => .error "net down"), none⟩)]
        "image_fetcher" [] =
      .streamed
        [⟨0, .text "ERROR: A 'url' argument is required to fetch an image."⟩] :=
  missing_required_argument_single_error_item (fun _ => .error "net down")
    (fun _ => .error "net down") [] rfl rfl

end MCS
